import Mathlib

/-!
Shallow embedding of the DynamoDB scheduled-backup repository:
three Python modules — lambda_function.py (restore-then-export job),
lambda_function_test.py (test/short-interval restore-then-export job) and
monthly_backup_lambda.py (live point-in-time export job).

External AWS calls are modelled by oracles: each call site consumes the next
entry of a caller-supplied list of responses, and every call is recorded in an
event trace.  Python exceptions are the `PyErr` type; a `while True` poll loop
that outruns its oracle is the `Res.stuck` / `Outcome.hang` result (the real
loop would still be polling).  `datetime` values are a plain calendar record;
`timedelta` arithmetic is day-by-day rollover over the Gregorian calendar.
-/

namespace DynamoBackup

/-- A timezone-naive-looking calendar datetime (the timezone is fixed per
handler: UTC in the restore jobs, JST in the monthly job). -/
structure DateTime where
  year : Nat
  month : Nat
  day : Nat
  hour : Nat
  minute : Nat
  second : Nat
deriving DecidableEq, Repr

def isLeap (y : Nat) : Bool :=
  (y % 4 == 0 && y % 100 != 0) || y % 400 == 0

def daysInMonth (y m : Nat) : Nat :=
  if m = 2 then (if isLeap y then 29 else 28)
  else if m = 4 ∨ m = 6 ∨ m = 9 ∨ m = 11 then 30
  else 31

/-- One day later, same time of day (one step of `timedelta(days=1)`). -/
def DateTime.nextDay (dt : DateTime) : DateTime :=
  if dt.day < daysInMonth dt.year dt.month then { dt with day := dt.day + 1 }
  else if dt.month < 12 then { dt with month := dt.month + 1, day := 1 }
  else { dt with year := dt.year + 1, month := 1, day := 1 }

/-- One day earlier, same time of day. -/
def DateTime.prevDay (dt : DateTime) : DateTime :=
  if 1 < dt.day then { dt with day := dt.day - 1 }
  else if 1 < dt.month then
    { dt with month := dt.month - 1, day := daysInMonth dt.year (dt.month - 1) }
  else { dt with year := dt.year - 1, month := 12, day := 31 }

/-- `dt + timedelta(days=n)`. -/
def addDays (dt : DateTime) : Nat → DateTime
  | 0 => dt
  | n + 1 => addDays dt.nextDay n

/-- `dt - timedelta(days=n)`. -/
def subDays (dt : DateTime) : Nat → DateTime
  | 0 => dt
  | n + 1 => subDays dt.prevDay n

/-- `dt - timedelta(hours=1)` (used by the test variant's restore point). -/
def subOneHour (dt : DateTime) : DateTime :=
  if 1 ≤ dt.hour then { dt with hour := dt.hour - 1 }
  else { dt.prevDay with hour := 23 }

def pad2 (n : Nat) : String :=
  if n < 10 then "0" ++ toString n else toString n

def pad4 (n : Nat) : String :=
  if n < 10 then "000" ++ toString n
  else if n < 100 then "00" ++ toString n
  else if n < 1000 then "0" ++ toString n
  else toString n

/-- `strftime('%Y/%m/%d/%H%M%S')`. -/
def strftimePath (dt : DateTime) : String :=
  pad4 dt.year ++ "/" ++ pad2 dt.month ++ "/" ++ pad2 dt.day ++ "/" ++
    pad2 dt.hour ++ pad2 dt.minute ++ pad2 dt.second

/-- `datetime.isoformat()` of a JST-aware datetime with zero microseconds. -/
def isoformatJST (dt : DateTime) : String :=
  pad4 dt.year ++ "-" ++ pad2 dt.month ++ "-" ++ pad2 dt.day ++ "T" ++
    pad2 dt.hour ++ ":" ++ pad2 dt.minute ++ ":" ++ pad2 dt.second ++ "+09:00"

/-- A Python exception value.  `resourceNotFound` is the service's
`ResourceNotFoundException`; `exc` is a generic `Exception` carrying its
message; `retryError` is tenacity's `RetryError`, which wraps the final
failed attempt (the wrapped exception is kept, but `str` of a `RetryError`
never shows the wrapped exception's message). -/
inductive PyErr where
  | resourceNotFound
  | exc (msg : String)
  | retryError (inner : PyErr)
deriving DecidableEq, Repr

/-- The exception's class name, as it appears in a `Future` repr. -/
def PyErr.className : PyErr → String
  | .resourceNotFound => "ResourceNotFoundException"
  | .exc _ => "Exception"
  | .retryError _ => "RetryError"

/-- `str(e)` as interpolated into messages.  `str` of a tenacity `RetryError`
is `RetryError[<Future at 0x... state=finished raised C>]` — the wrapped
attempt's repr shows only the exception class `C`, never its message (the
memory address is elided here). -/
def PyErr.str : PyErr → String
  | .resourceNotFound => "ResourceNotFoundException"
  | .exc m => m
  | .retryError inner =>
    "RetryError[<Future state=finished raised " ++ inner.className ++ ">]"

/-- Does `sub` occur as a contiguous substring of `s`?  (The notion used to
read "the message contains X verbatim".) -/
def strContainsSub (s sub : String) : Bool :=
  s.data.tails.any fun t => sub.data.isPrefixOf t

/-- The `Table` part of a `describe_table` response: the fields the code
reads (`TableStatus`, `TableArn`). -/
structure TableDesc where
  tableStatus : String
  tableArn : String
deriving DecidableEq, Repr

/-- The `ExportDescription` part of a `describe_export` response: the fields
the code reads (`ExportStatus`, optional `FailureMessage`). -/
structure ExportDesc where
  exportStatus : String
  failureMessage : Option String
deriving DecidableEq, Repr

/-- One recorded external effect.  Each AWS API invocation appends one event;
`sleep` records `time.sleep(seconds)`; `cleanupCall` marks entry into
`cleanup_temp_table` (one event per call of that function). -/
inductive Ev where
  | describeTable (name : String)
  | deleteTable (name : String)
  | restoreTable (source target : String) (restoreDateTime : DateTime)
  | exportTableToPointInTime (tableArn bucket pathPfx : String)
  | exportTableAtTime (tableArn bucket exportTime : String)
  | exportTableToS3 (tableArn bucket pathPfx : String)
  | describeExport (arn : String)
  | sleep (seconds : Nat)
  | cleanupCall (name : String)
deriving DecidableEq, Repr

/-- Result of running a piece of Python code against its oracle: normal
return, a propagating exception, or `stuck` when a poll loop consumed its
whole oracle while still waiting (the real loop would still be running). -/
inductive Res (α : Type) where
  | ok (a : α)
  | err (e : PyErr)
  | stuck
deriving DecidableEq, Repr

/-- Final outcome of a restore-variant `lambda_handler` invocation. -/
inductive Outcome where
  | success (statusCode : Nat) (body : String)
  | raised (e : PyErr)
  | hang
deriving DecidableEq, Repr

/-- `MAX_RETRIES = 3` (identical in lambda_function.py and the test file). -/
def MAX_RETRIES : Nat := 3

/-- `WAIT_TIME = 30` seconds (identical in both restore-variant files). -/
def WAIT_TIME : Nat := 30

/-- One pass of the `while True` body of `wait_for_table_status` per oracle
entry (this loop body is textually identical in lambda_function.py and
lambda_function_test.py).  Returns `some desc` when the status matches,
`none` when `ResourceNotFoundException` is seen while waiting for `DELETED`. -/
def waitTableStep (table_name expected : String) :
    List (Except PyErr TableDesc) → List Ev × Res (Option TableDesc)
  | [] => ([], .stuck)
  | r :: rest =>
    let ev := Ev.describeTable table_name
    match r with
    | .ok d =>
      if d.tableStatus = expected then ([ev], .ok (some d))
      else if d.tableStatus = "CREATING" ∨ d.tableStatus = "RESTORING" then
        let (t, res) := waitTableStep table_name expected rest
        (ev :: Ev.sleep WAIT_TIME :: t, res)
      else ([ev], .err (.exc ("Unexpected table status: " ++ d.tableStatus)))
    | .error .resourceNotFound =>
      if expected = "DELETED" then ([ev], .ok none)
      else
        let (t, res) := waitTableStep table_name expected rest
        (ev :: Ev.sleep WAIT_TIME :: t, res)
    | .error e => ([ev], .err e)

/-- One pass of the `while True` body of `wait_for_export_completion` per
oracle entry (identical loop body in both restore-variant files). -/
def waitExportStep (export_arn : String) :
    List (Except PyErr ExportDesc) → List Ev × Res ExportDesc
  | [] => ([], .stuck)
  | r :: rest =>
    let ev := Ev.describeExport export_arn
    match r with
    | .ok d =>
      if d.exportStatus = "COMPLETED" then ([ev], .ok d)
      else if d.exportStatus = "IN_PROGRESS" then
        let (t, res) := waitExportStep export_arn rest
        (ev :: Ev.sleep WAIT_TIME :: t, res)
      else if d.exportStatus = "FAILED" ∨ d.exportStatus = "CANCELLED" then
        ([ev], .err (.exc ("Export failed or cancelled: " ++
          d.failureMessage.getD "No failure message")))
      else ([ev], .err (.exc ("Unexpected export status: " ++ d.exportStatus)))
    | .error e => ([ev], .err e)

/-- tenacity's `@retry(stop=stop_after_attempt(k), wait=wait_exponential(...))`
as used in lambda_function.py: run the decorated function once per attempt
oracle and retry on any exception.  With tenacity's default `reraise=False`,
exhausting the attempts does not re-raise the last exception: it raises
`RetryError(last_attempt)`, wrapping it — modelled by `PyErr.retryError`.
(The inter-attempt backoff sleeps are not traced.) -/
def tenacityRetry (f : ε → List Ev × Res α) : Nat → List ε → List Ev × Res α
  | _, [] => ([], .stuck)
  | 0, _ => ([], .stuck)
  | n + 1, envA :: rest =>
    match f envA with
    | (t, .err e) =>
      if n = 0 then (t, .err (.retryError e))
      else
        let (t2, r2) := tenacityRetry f n rest
        (t ++ t2, r2)
    | (t, r) => (t, r)

/-- `b.startswith('/')`: does the string begin with a slash? -/
def headIsSlash (s : String) : Bool :=
  match s.data with
  | [] => false
  | c :: _ => c = '/'

/-- `a.endswith('/')`: does the string end with a slash? -/
def lastIsSlash (s : String) : Bool :=
  match s.data.getLast? with
  | some c => c = '/'
  | none => false

/-- posix `os.path.join` on two components as exercised here. -/
def joinTwo (a b : String) : String :=
  if headIsSlash b then b
  else if a = "" ∨ lastIsSlash a then a ++ b
  else a ++ "/" ++ b

/-- `os.path.join(a, b, c)`. -/
def osPathJoin (a b c : String) : String := joinTwo (joinTwo a b) c

/-! ## lambda_function.py — the production restore-then-export job

Its `wait_for_table_status` and `wait_for_export_completion` carry tenacity
`@retry(stop=stop_after_attempt(MAX_RETRIES), wait=wait_exponential(...))`
decorators; the initiating `restore_table_to_point_in_time` and
`export_table_to_point_in_time` calls are issued directly, with no wrapper. -/

namespace LF

/-- `wait_for_table_status` of lambda_function.py: the poll loop under its
tenacity retry decorator.  One oracle list per decorator attempt. -/
def wait_for_table_status (table_name expected : String)
    (attempts : List (List (Except PyErr TableDesc))) :
    List Ev × Res (Option TableDesc) :=
  tenacityRetry (waitTableStep table_name expected) MAX_RETRIES attempts

/-- `wait_for_export_completion` of lambda_function.py, under its tenacity
retry decorator. -/
def wait_for_export_completion (export_arn : String)
    (attempts : List (List (Except PyErr ExportDesc))) :
    List Ev × Res ExportDesc :=
  tenacityRetry (waitExportStep export_arn) MAX_RETRIES attempts

/-- Oracle for one `cleanup_temp_table` call: the `describe_table` response,
the `delete_table` response, and the attempt oracles of the DELETED wait. -/
structure CleanupEnv where
  describeResult : Except PyErr TableDesc
  deleteResult : Except PyErr Unit
  deleteWaitAttempts : List (List (Except PyErr TableDesc))
deriving Repr

/-- `cleanup_temp_table` of lambda_function.py: existence check, delete,
wait for deletion; `ResourceNotFoundException` at any point inside the `try`
is swallowed (table already absent), every other exception is re-raised. -/
def cleanup_temp_table (table_name : String) (env : CleanupEnv) :
    List Ev × Res Unit :=
  let t0 := [Ev.cleanupCall table_name, Ev.describeTable table_name]
  match env.describeResult with
  | .error .resourceNotFound => (t0, .ok ())
  | .error e => (t0, .err e)
  | .ok _ =>
    let t1 := t0 ++ [Ev.deleteTable table_name]
    match env.deleteResult with
    | .error .resourceNotFound => (t1, .ok ())
    | .error e => (t1, .err e)
    | .ok _ =>
      match wait_for_table_status table_name "DELETED" env.deleteWaitAttempts with
      | (t2, .ok _) => (t1 ++ t2, .ok ())
      | (t2, .err .resourceNotFound) => (t1 ++ t2, .ok ())
      | (t2, .err e) => (t1 ++ t2, .err e)
      | (t2, .stuck) => (t1 ++ t2, .stuck)

/-- The module-level configuration read from the environment.
(`s3Pfx` models the `S3_PREFIX` environment value, default `''`.) -/
structure Config where
  SOURCE_TABLE_NAME : String
  S3_BUCKET_NAME : String
  s3Pfx : String
deriving Repr

/-- Oracle for one `lambda_handler` invocation: outcome of the restore call,
attempt oracles of the ACTIVE wait, outcome of the export call (its
`ExportArn` on success), attempt oracles of the export wait, and the oracles
of the success-path and error-path `cleanup_temp_table` calls. -/
structure HandlerEnv where
  restoreResult : Except PyErr Unit
  activeWaitAttempts : List (List (Except PyErr TableDesc))
  exportResult : Except PyErr String
  exportWaitAttempts : List (List (Except PyErr ExportDesc))
  cleanupSuccess : CleanupEnv
  cleanupError : CleanupEnv
deriving Repr

/-- The `except Exception` block of `lambda_handler`: attempt cleanup, swallow
any cleanup exception, then `raise` re-propagates the exception being
handled. -/
def errorPath (temp_table_name : String) (cenv : CleanupEnv)
    (tAcc : List Ev) (e : PyErr) : List Ev × Outcome :=
  match cleanup_temp_table temp_table_name cenv with
  | (tc, .stuck) => (tAcc ++ tc, .hang)
  | (tc, _) => (tAcc ++ tc, .raised e)

/-- `lambda_handler` of lambda_function.py.  `now` is `datetime.now(utc)` at
entry, `epochTime` is `int(time.time())`, `exportNow` is the second clock
reading taken just before the export call. -/
def lambda_handler (cfg : Config) (now : DateTime) (epochTime : Nat)
    (exportNow : DateTime) (env : HandlerEnv) : List Ev × Outcome :=
  let restore_datetime := subDays now 30
  let temp_table_name := cfg.SOURCE_TABLE_NAME ++ "-restored-" ++ toString epochTime
  let tR : List Ev :=
    [Ev.restoreTable cfg.SOURCE_TABLE_NAME temp_table_name restore_datetime]
  match env.restoreResult with
  | .error e => errorPath temp_table_name env.cleanupError tR e
  | .ok _ =>
    match wait_for_table_status temp_table_name "ACTIVE" env.activeWaitAttempts with
    | (tW, .stuck) => (tR ++ tW, .hang)
    | (tW, .err e) => errorPath temp_table_name env.cleanupError (tR ++ tW) e
    | (tW, .ok none) =>
      -- `table_description` would be None here and the subsequent
      -- subscripting raises a TypeError (unreachable for expected ACTIVE).
      errorPath temp_table_name env.cleanupError (tR ++ tW)
        (.exc "TypeError: NoneType object is not subscriptable")
    | (tW, .ok (some desc)) =>
      let s3_full_pfx :=
        osPathJoin cfg.s3Pfx temp_table_name (strftimePath exportNow)
      let tE := tR ++ tW ++
        [Ev.exportTableToPointInTime desc.tableArn cfg.S3_BUCKET_NAME s3_full_pfx]
      match env.exportResult with
      | .error e => errorPath temp_table_name env.cleanupError tE e
      | .ok export_arn =>
        match wait_for_export_completion export_arn env.exportWaitAttempts with
        | (tX, .stuck) => (tE ++ tX, .hang)
        | (tX, .err e) => errorPath temp_table_name env.cleanupError (tE ++ tX) e
        | (tX, .ok _) =>
          match cleanup_temp_table temp_table_name env.cleanupSuccess with
          | (tC, .ok _) =>
            (tE ++ tX ++ tC, .success 200
              ("Process completed successfully. Exported to s3://" ++
                cfg.S3_BUCKET_NAME ++ "/" ++ s3_full_pfx))
          | (tC, .err e) =>
            errorPath temp_table_name env.cleanupError (tE ++ tX ++ tC) e
          | (tC, .stuck) => (tE ++ tX ++ tC, .hang)

end LF

/-! ## lambda_function_test.py — the test/short-interval restore-then-export job

Here the retry logic is the hand-written `retry_with_backoff`, applied around
the initiating `restore_table_to_point_in_time` and `export_table_to_s3`
calls; the wait/poll helpers carry no retry wrapper. -/

namespace LFT

/-- The loop body of `retry_with_backoff` (`for attempt in range(MAX_RETRIES)`),
one oracle entry per invocation of `func`.  `ev` is the trace event recording
one invocation of the wrapped call. -/
def retryLoop (ev : Ev) (attempt : Nat) :
    List (Except PyErr α) → List Ev × Res α
  | [] => ([], .stuck)
  | r :: rest =>
    match r with
    | .ok a => ([ev], .ok a)
    | .error e =>
      if attempt = MAX_RETRIES - 1 then ([ev], .err e)
      else
        let w := min (WAIT_TIME * 2 ^ attempt) 300
        let (t, res) := retryLoop ev (attempt + 1) rest
        (ev :: Ev.sleep w :: t, res)

/-- `retry_with_backoff` of lambda_function_test.py. -/
def retry_with_backoff (ev : Ev) (results : List (Except PyErr α)) :
    List Ev × Res α :=
  retryLoop ev 0 results

/-- `wait_for_table_status` of lambda_function_test.py: the bare poll loop,
no retry wrapper. -/
def wait_for_table_status (table_name expected : String)
    (polls : List (Except PyErr TableDesc)) : List Ev × Res (Option TableDesc) :=
  waitTableStep table_name expected polls

/-- `wait_for_export_completion` of lambda_function_test.py: the bare poll
loop, no retry wrapper. -/
def wait_for_export_completion (export_arn : String)
    (polls : List (Except PyErr ExportDesc)) : List Ev × Res ExportDesc :=
  waitExportStep export_arn polls

/-- Oracle for one test-variant `cleanup_temp_table` call. -/
structure CleanupEnv where
  describeResult : Except PyErr TableDesc
  deleteResult : Except PyErr Unit
  deleteWaitPolls : List (Except PyErr TableDesc)
deriving Repr

/-- `cleanup_temp_table` of lambda_function_test.py (same body as the
production one, but its DELETED wait has no tenacity decorator). -/
def cleanup_temp_table (table_name : String) (env : CleanupEnv) :
    List Ev × Res Unit :=
  let t0 := [Ev.cleanupCall table_name, Ev.describeTable table_name]
  match env.describeResult with
  | .error .resourceNotFound => (t0, .ok ())
  | .error e => (t0, .err e)
  | .ok _ =>
    let t1 := t0 ++ [Ev.deleteTable table_name]
    match env.deleteResult with
    | .error .resourceNotFound => (t1, .ok ())
    | .error e => (t1, .err e)
    | .ok _ =>
      match wait_for_table_status table_name "DELETED" env.deleteWaitPolls with
      | (t2, .ok _) => (t1 ++ t2, .ok ())
      | (t2, .err .resourceNotFound) => (t1 ++ t2, .ok ())
      | (t2, .err e) => (t1 ++ t2, .err e)
      | (t2, .stuck) => (t1 ++ t2, .stuck)

/-- Module configuration of the test variant (no `S3_PREFIX`). -/
structure Config where
  SOURCE_TABLE_NAME : String
  S3_BUCKET_NAME : String
deriving Repr

/-- Oracle for one test-variant `lambda_handler` invocation.  The restore and
export oracles are lists because `retry_with_backoff` may invoke them up to
`MAX_RETRIES` times. -/
structure HandlerEnv where
  restoreResults : List (Except PyErr Unit)
  activeWaitPolls : List (Except PyErr TableDesc)
  exportResults : List (Except PyErr String)
  exportWaitPolls : List (Except PyErr ExportDesc)
  cleanupSuccess : CleanupEnv
  cleanupError : CleanupEnv
deriving Repr

/-- The `except Exception` block of the test-variant `lambda_handler`. -/
def errorPath (temp_table_name : String) (cenv : CleanupEnv)
    (tAcc : List Ev) (e : PyErr) : List Ev × Outcome :=
  match cleanup_temp_table temp_table_name cenv with
  | (tc, .stuck) => (tAcc ++ tc, .hang)
  | (tc, _) => (tAcc ++ tc, .raised e)

/-- `lambda_handler` of lambda_function_test.py: one-hour restore lag,
`-test-restored-` table name, `test/...` export path, `retry_with_backoff`
around the two initiating calls. -/
def lambda_handler (cfg : Config) (now : DateTime) (epochTime : Nat)
    (exportNow : DateTime) (env : HandlerEnv) : List Ev × Outcome :=
  let restore_datetime := subOneHour now
  let temp_table_name :=
    cfg.SOURCE_TABLE_NAME ++ "-test-restored-" ++ toString epochTime
  match retry_with_backoff
      (Ev.restoreTable cfg.SOURCE_TABLE_NAME temp_table_name restore_datetime)
      env.restoreResults with
  | (tR, .stuck) => (tR, .hang)
  | (tR, .err e) => errorPath temp_table_name env.cleanupError tR e
  | (tR, .ok _) =>
    match wait_for_table_status temp_table_name "ACTIVE" env.activeWaitPolls with
    | (tW, .stuck) => (tR ++ tW, .hang)
    | (tW, .err e) => errorPath temp_table_name env.cleanupError (tR ++ tW) e
    | (tW, .ok none) =>
      errorPath temp_table_name env.cleanupError (tR ++ tW)
        (.exc "TypeError: NoneType object is not subscriptable")
    | (tW, .ok (some desc)) =>
      let s3_pfx := "test/" ++ temp_table_name ++ "/" ++ strftimePath exportNow
      match retry_with_backoff
          (Ev.exportTableToS3 desc.tableArn cfg.S3_BUCKET_NAME s3_pfx)
          env.exportResults with
      | (tI, .stuck) => (tR ++ tW ++ tI, .hang)
      | (tI, .err e) =>
        errorPath temp_table_name env.cleanupError (tR ++ tW ++ tI) e
      | (tI, .ok export_arn) =>
        match wait_for_export_completion export_arn env.exportWaitPolls with
        | (tX, .stuck) => (tR ++ tW ++ tI ++ tX, .hang)
        | (tX, .err e) =>
          errorPath temp_table_name env.cleanupError (tR ++ tW ++ tI ++ tX) e
        | (tX, .ok _) =>
          match cleanup_temp_table temp_table_name env.cleanupSuccess with
          | (tC, .ok _) =>
            (tR ++ tW ++ tI ++ tX ++ tC, .success 200
              ("Test process completed successfully. Exported to s3://" ++
                cfg.S3_BUCKET_NAME ++ "/" ++ s3_pfx))
          | (tC, .err e) =>
            errorPath temp_table_name env.cleanupError
              (tR ++ tW ++ tI ++ tX ++ tC) e
          | (tC, .stuck) => (tR ++ tW ++ tI ++ tX ++ tC, .hang)

end LFT

/-! ## monthly_backup_lambda.py — the live point-in-time export job

No temporary table and no polling: compute 23:59:59 of the last day of the
previous month (JST), issue one `export_table_to_point_in_time` with that
`ExportTime`, and return a structured 200/500 response.  The whole handler
body sits in one `try`, whose `except Exception` converts any error into a
`statusCode: 500` response — this handler never raises. -/

namespace MB

/-- `now.replace(month=m)`: Python raises `ValueError` when the current day
does not exist in the target month. -/
def replaceMonth (dt : DateTime) (m : Nat) : Except PyErr DateTime :=
  if 1 ≤ m ∧ m ≤ 12 ∧ dt.day ≤ daysInMonth dt.year m then
    .ok { dt with month := m }
  else .error (.exc "day is out of range for month")

/-- `now.replace(year=y, month=m)`. -/
def replaceYearMonth (dt : DateTime) (y m : Nat) : Except PyErr DateTime :=
  if 1 ≤ m ∧ m ≤ 12 ∧ dt.day ≤ daysInMonth y m then
    .ok { dt with year := y, month := m }
  else .error (.exc "day is out of range for month")

/-- `dt.replace(day=d)`. -/
def replaceDay (dt : DateTime) (d : Nat) : Except PyErr DateTime :=
  if 1 ≤ d ∧ d ≤ daysInMonth dt.year dt.month then
    .ok { dt with day := d }
  else .error (.exc "day is out of range for month")

/-- `last_day.replace(hour=23, minute=59, second=59)` (always valid). -/
def replaceHMS (dt : DateTime) (h mi s : Nat) : DateTime :=
  { dt with hour := h, minute := mi, second := s }

/-- The `export_time` computation of the handler: previous month of `now`,
roll to that month's first day, add 32 days, back to day 1, minus one day
(= last day of the previous month), then 23:59:59, ISO-formatted with the
JST offset. -/
def computeExportTime (now : DateTime) : Except PyErr String := do
  let last_month ←
    if now.month = 1 then replaceYearMonth now (now.year - 1) 12
    else replaceMonth now (now.month - 1)
  let firstOfLast ← replaceDay last_month 1
  let rolled ← replaceDay (addDays firstOfLast 32) 1
  let last_day := subDays rolled 1
  pure (isoformatJST (replaceHMS last_day 23 59 59))

/-- Oracle for one monthly-handler invocation: the STS caller-identity call
(account id) and the export call (its `ExportArn`). -/
structure Env where
  account : Except PyErr String
  exportResult : Except PyErr String
deriving Repr

/-- Body of the monthly handler's JSON response: `json.dumps` of either the
success dict or the error dict. -/
inductive Body where
  | success (message exportArn exportTime s3Location : String)
  | failure (error : String)
deriving DecidableEq, Repr

/-- The structured `{statusCode, body}` return value. -/
structure Response where
  statusCode : Nat
  body : Body
deriving DecidableEq, Repr

/-- The `except Exception` branch: `statusCode: 500` with the formatted
error message. -/
def errorResponse (e : PyErr) : Response :=
  ⟨500, .failure ("エクスポート中にエラーが発生しました: " ++ e.str)⟩

/-- `lambda_handler` of monthly_backup_lambda.py.  `region` models
`boto3.session.Session().region_name` (an attribute read); the fallible
steps are the date computation, the STS call and the export call, and any
exception from them becomes a 500 response — the function always returns a
`Response` and never propagates an exception. -/
def lambda_handler (tableName bucketName region : String) (now : DateTime)
    (env : Env) : List Ev × Response :=
  match computeExportTime now with
  | .error e => ([], errorResponse e)
  | .ok export_time =>
    match env.account with
    | .error e => ([], errorResponse e)
    | .ok acct =>
      let arn :=
        "arn:aws:dynamodb:" ++ region ++ ":" ++ acct ++ ":table/" ++ tableName
      let tr := [Ev.exportTableAtTime arn bucketName export_time]
      match env.exportResult with
      | .error e => (tr, errorResponse e)
      | .ok export_arn =>
        (tr, ⟨200, .success "前月最終日時点のバックアップエクスポートを開始しました"
          export_arn export_time ("s3://" ++ bucketName)⟩)

end MB

/-! ## Trace observations and helper lemmas -/

/-- Is this event an entry into `cleanup_temp_table`? -/
def isCleanupCall : Ev → Bool
  | .cleanupCall _ => true
  | _ => false

/-- Is this event an invocation of `restore_table_to_point_in_time`? -/
def isRestoreCall : Ev → Bool
  | .restoreTable _ _ _ => true
  | _ => false

/-- Number of `cleanup_temp_table` calls recorded in a trace. -/
def countCleanupCalls (t : List Ev) : Nat := (t.filter isCleanupCall).length

/-- Number of restore-API invocations recorded in a trace. -/
def countRestoreCalls (t : List Ev) : Nat := (t.filter isRestoreCall).length

/-- The table name an event targets, when it targets one (the restore event's
target table; the describe/delete/cleanup events' table). -/
def Ev.tableNameOf : Ev → Option String
  | .describeTable n => some n
  | .deleteTable n => some n
  | .restoreTable _ tgt _ => some tgt
  | .cleanupCall n => some n
  | _ => none

theorem waitTableStep_events (n exp : String) :
    ∀ polls, ∀ ev ∈ (waitTableStep n exp polls).1,
      ev = Ev.describeTable n ∨ ev = Ev.sleep WAIT_TIME := by
  intro polls
  induction polls with
  | nil => intro ev h; simp [waitTableStep] at h
  | cons r rest ih =>
    intro ev h
    rcases r with e | d
    · rcases e with _ | m | i
      · simp only [waitTableStep] at h
        split_ifs at h <;> simp at h
        · exact Or.inl h
        · rcases h with h | h | h
          · exact Or.inl h
          · exact Or.inr h
          · exact ih ev h
      · simp [waitTableStep] at h
        exact Or.inl h
      · simp [waitTableStep] at h
        exact Or.inl h
    · simp only [waitTableStep] at h
      split_ifs at h <;> simp at h
      · exact Or.inl h
      · rcases h with h | h | h
        · exact Or.inl h
        · exact Or.inr h
        · exact ih ev h
      · exact Or.inl h

theorem waitExportStep_events (arn : String) :
    ∀ polls, ∀ ev ∈ (waitExportStep arn polls).1,
      ev = Ev.describeExport arn ∨ ev = Ev.sleep WAIT_TIME := by
  intro polls
  induction polls with
  | nil => intro ev h; simp [waitExportStep] at h
  | cons r rest ih =>
    intro ev h
    rcases r with e | d
    · simp [waitExportStep] at h
      exact Or.inl h
    · simp only [waitExportStep] at h
      split_ifs at h <;> simp at h
      · exact Or.inl h
      · rcases h with h | h | h
        · exact Or.inl h
        · exact Or.inr h
        · exact ih ev h
      · exact Or.inl h
      · exact Or.inl h

theorem tenacityRetry_events {ε α : Type} (f : ε → List Ev × Res α)
    (P : Ev → Prop) (hf : ∀ a, ∀ ev ∈ (f a).1, P ev) :
    ∀ (envs : List ε) (k : Nat), ∀ ev ∈ (tenacityRetry f k envs).1, P ev := by
  intro envs
  induction envs with
  | nil =>
    intro k ev h
    cases k <;> simp [tenacityRetry] at h
  | cons a rest ih =>
    intro k ev h
    cases k with
    | zero => simp [tenacityRetry] at h
    | succ n =>
      simp only [tenacityRetry] at h
      rcases h2 : f a with ⟨t, r⟩
      rw [h2] at h
      rcases r with v | e | _
      · exact hf a ev (by rw [h2]; exact h)
      · by_cases hn : n = 0
        · subst hn
          simp at h
          exact hf a ev (by rw [h2]; simpa using h)
        · simp [hn] at h
          rcases h with h | h
          · exact hf a ev (by rw [h2]; simpa using h)
          · exact ih n ev h
      · exact hf a ev (by rw [h2]; exact h)

theorem LF.wait_table_events (n exp : String)
    (attempts : List (List (Except PyErr TableDesc))) :
    ∀ ev ∈ (LF.wait_for_table_status n exp attempts).1,
      ev = Ev.describeTable n ∨ ev = Ev.sleep WAIT_TIME :=
  tenacityRetry_events (waitTableStep n exp) _
    (fun a => waitTableStep_events n exp a) attempts MAX_RETRIES

theorem LF.wait_export_events (arn : String)
    (attempts : List (List (Except PyErr ExportDesc))) :
    ∀ ev ∈ (LF.wait_for_export_completion arn attempts).1,
      ev = Ev.describeExport arn ∨ ev = Ev.sleep WAIT_TIME :=
  tenacityRetry_events (waitExportStep arn) _
    (fun a => waitExportStep_events arn a) attempts MAX_RETRIES

theorem LF.cleanup_events (n : String) (cenv : LF.CleanupEnv) :
    ∀ ev ∈ (LF.cleanup_temp_table n cenv).1,
      ev = Ev.cleanupCall n ∨ ev = Ev.describeTable n ∨
        ev = Ev.deleteTable n ∨ ev = Ev.sleep WAIT_TIME := by
  intro ev h
  simp only [LF.cleanup_temp_table] at h
  rcases hd : cenv.describeResult with e | d
  · rcases e with _ | m | i <;> rw [hd] at h <;> simp at h <;> tauto
  · rw [hd] at h
    rcases he : cenv.deleteResult with e | u
    · rcases e with _ | m | i <;> rw [he] at h <;> simp at h <;> tauto
    · rw [he] at h
      rcases hw : LF.wait_for_table_status n "DELETED" cenv.deleteWaitAttempts
        with ⟨t2, r2⟩
      rw [hw] at h
      have hwe : ∀ e2 ∈ t2, e2 = Ev.describeTable n ∨ e2 = Ev.sleep WAIT_TIME := by
        intro e2 h2
        exact LF.wait_table_events n "DELETED" cenv.deleteWaitAttempts e2
          (by rw [hw]; exact h2)
      rcases r2 with v | e2 | _
      · simp at h
        rcases h with h | h | h | h
        · tauto
        · tauto
        · tauto
        · rcases hwe ev h with h3 | h3 <;> tauto
      · rcases e2 with _ | m | i <;> simp at h <;>
          rcases h with h | h | h | h <;>
            first
              | tauto
              | (rcases hwe ev h with h3 | h3 <;> tauto)
      · simp at h
        rcases h with h | h | h | h
        · tauto
        · tauto
        · tauto
        · rcases hwe ev h with h3 | h3 <;> tauto

/-- Every single `cleanup_temp_table` call records exactly one `cleanupCall`
event, whatever its oracle makes it do. -/
theorem LF.cleanup_countCleanup (n : String) (cenv : LF.CleanupEnv) :
    countCleanupCalls (LF.cleanup_temp_table n cenv).1 = 1 := by
  have hwnil : ∀ exp attempts,
      ((LF.wait_for_table_status n exp attempts).1.filter isCleanupCall) = [] := by
    intro exp attempts
    rw [List.filter_eq_nil_iff]
    intro a ha
    rcases LF.wait_table_events n exp attempts a ha with h | h <;>
      subst h <;> simp [isCleanupCall]
  unfold countCleanupCalls
  simp only [LF.cleanup_temp_table]
  rcases hd : cenv.describeResult with e | d
  · rcases e with _ | m | i <;> simp [isCleanupCall]
  · rcases he : cenv.deleteResult with e | u
    · rcases e with _ | m | i <;> simp [isCleanupCall]
    · rcases hw : LF.wait_for_table_status n "DELETED" cenv.deleteWaitAttempts
        with ⟨t2, r2⟩
      have h2 : t2.filter isCleanupCall = [] := by
        have := hwnil "DELETED" cenv.deleteWaitAttempts
        rw [hw] at this
        exact this
      rcases r2 with v | e2 | _
      · simp [List.filter_append, h2, isCleanupCall]
      · rcases e2 with _ | m | i <;> simp [List.filter_append, h2, isCleanupCall]
      · simp [List.filter_append, h2, isCleanupCall]

theorem LF.errorPath_trace (t : String) (c : LF.CleanupEnv) (acc : List Ev)
    (e : PyErr) :
    (LF.errorPath t c acc e).1 = acc ++ (LF.cleanup_temp_table t c).1 := by
  unfold LF.errorPath
  rcases h : LF.cleanup_temp_table t c with ⟨tc, rc⟩
  rcases rc with v | e2 | _ <;> simp

theorem LF.errorPath_outcome (t : String) (c : LF.CleanupEnv) (acc : List Ev)
    (e : PyErr) :
    (LF.errorPath t c acc e).2 = .raised e ∨ (LF.errorPath t c acc e).2 = .hang := by
  unfold LF.errorPath
  rcases h : LF.cleanup_temp_table t c with ⟨tc, rc⟩
  rcases rc with v | e2 | _ <;> simp

/-- The `except Exception` block swallows any cleanup failure and re-raises
the original exception, as long as the cleanup run itself terminates. -/
theorem LF.errorPath_raised (t : String) (c : LF.CleanupEnv) (acc : List Ev)
    (e : PyErr) (hc : (LF.cleanup_temp_table t c).2 ≠ .stuck) :
    (LF.errorPath t c acc e).2 = .raised e := by
  unfold LF.errorPath
  rcases h : LF.cleanup_temp_table t c with ⟨tc, rc⟩
  rw [h] at hc
  rcases rc with v | e2 | _ <;> simp_all

/-- An error path on top of a cleanup-free partial trace records exactly one
cleanup attempt. -/
theorem LF.errorPath_countCleanup (t : String) (c : LF.CleanupEnv)
    (acc : List Ev) (e : PyErr) (hacc : countCleanupCalls acc = 0) :
    countCleanupCalls (LF.errorPath t c acc e).1 = 1 := by
  rw [LF.errorPath_trace]
  unfold countCleanupCalls at hacc ⊢
  rw [List.filter_append, List.length_append, hacc]
  have := LF.cleanup_countCleanup t c
  unfold countCleanupCalls at this
  omega

/-- Every `cleanup_temp_table` run records its own entry event. -/
theorem LF.cleanup_mem_call (n : String) (cenv : LF.CleanupEnv) :
    Ev.cleanupCall n ∈ (LF.cleanup_temp_table n cenv).1 := by
  simp only [LF.cleanup_temp_table]
  rcases hd : cenv.describeResult with e | d
  · rcases e with _ | m <;> simp
  · rcases he : cenv.deleteResult with e | u
    · rcases e with _ | m <;> simp
    · rcases hw : LF.wait_for_table_status n "DELETED" cenv.deleteWaitAttempts
        with ⟨t2, r2⟩
      rcases r2 with v | e2 | _
      · simp
      · rcases e2 with _ | m | i <;> simp
      · simp

/-- The error path adds exactly one cleanup attempt to the accumulated
trace. -/
theorem LF.errorPath_countCleanup_eq (t : String) (c : LF.CleanupEnv)
    (acc : List Ev) (e : PyErr) :
    countCleanupCalls (LF.errorPath t c acc e).1 = countCleanupCalls acc + 1 := by
  rw [LF.errorPath_trace]
  unfold countCleanupCalls
  rw [List.filter_append, List.length_append]
  have := LF.cleanup_countCleanup t c
  unfold countCleanupCalls at this
  omega

/-- In every run, whatever the oracle does, the trace of
`lambda_function.py`'s handler begins with the restore request that already
carries the computed temporary-table name. -/
theorem LF.handler_head (cfg : LF.Config) (now exportNow : DateTime)
    (epoch : Nat) (env : LF.HandlerEnv) :
    ∃ rest, (LF.lambda_handler cfg now epoch exportNow env).1 =
      Ev.restoreTable cfg.SOURCE_TABLE_NAME
        (cfg.SOURCE_TABLE_NAME ++ "-restored-" ++ toString epoch)
        (subDays now 30) :: rest := by
  unfold LF.lambda_handler
  dsimp only
  split
  · rw [LF.errorPath_trace]
    exact ⟨_, by simp only [List.cons_append, List.nil_append, List.append_assoc]; rfl⟩
  · split
    · exact ⟨_, by simp only [List.cons_append, List.nil_append, List.append_assoc]; rfl⟩
    · rw [LF.errorPath_trace]
      exact ⟨_, by simp only [List.cons_append, List.nil_append, List.append_assoc]; rfl⟩
    · rw [LF.errorPath_trace]
      exact ⟨_, by simp only [List.cons_append, List.nil_append, List.append_assoc]; rfl⟩
    · split
      · rw [LF.errorPath_trace]
        exact ⟨_, by simp only [List.cons_append, List.nil_append, List.append_assoc]; rfl⟩
      · split
        · exact ⟨_, by simp only [List.cons_append, List.nil_append, List.append_assoc]; rfl⟩
        · rw [LF.errorPath_trace]
          exact ⟨_, by simp only [List.cons_append, List.nil_append, List.append_assoc]; rfl⟩
        · split
          · exact ⟨_, by simp only [List.cons_append, List.nil_append, List.append_assoc]; rfl⟩
          · rw [LF.errorPath_trace]
            exact ⟨_, by simp only [List.cons_append, List.nil_append, List.append_assoc]; rfl⟩
          · exact ⟨_, by simp only [List.cons_append, List.nil_append, List.append_assoc]; rfl⟩

/-- In every run, whatever the oracle does, every table-name-bearing event in
the handler trace carries the one temporary-table name computed from the
source name and the epoch timestamp. -/
theorem LF.handler_names (cfg : LF.Config) (now exportNow : DateTime)
    (epoch : Nat) (env : LF.HandlerEnv) :
    ∀ ev ∈ (LF.lambda_handler cfg now epoch exportNow env).1,
      Ev.tableNameOf ev = none ∨
        Ev.tableNameOf ev =
          some (cfg.SOURCE_TABLE_NAME ++ "-restored-" ++ toString epoch) := by
  intro ev hev
  have hP : ∀ x : Ev,
      (x = Ev.describeTable (cfg.SOURCE_TABLE_NAME ++ "-restored-" ++ toString epoch) ∨
        x = Ev.sleep WAIT_TIME) →
      Ev.tableNameOf x = none ∨
        Ev.tableNameOf x =
          some (cfg.SOURCE_TABLE_NAME ++ "-restored-" ++ toString epoch) := by
    rintro x (rfl | rfl) <;> simp [Ev.tableNameOf]
  have hclean : ∀ (cenv : LF.CleanupEnv), ∀ x ∈ (LF.cleanup_temp_table
      (cfg.SOURCE_TABLE_NAME ++ "-restored-" ++ toString epoch) cenv).1,
      Ev.tableNameOf x = none ∨
        Ev.tableNameOf x =
          some (cfg.SOURCE_TABLE_NAME ++ "-restored-" ++ toString epoch) := by
    intro cenv x hx
    rcases LF.cleanup_events _ cenv x hx with rfl | rfl | rfl | rfl <;>
      simp [Ev.tableNameOf]
  have herr : ∀ (acc : List Ev) (e : PyErr),
      (∀ x ∈ acc, Ev.tableNameOf x = none ∨
        Ev.tableNameOf x =
          some (cfg.SOURCE_TABLE_NAME ++ "-restored-" ++ toString epoch)) →
      ∀ x ∈ (LF.errorPath (cfg.SOURCE_TABLE_NAME ++ "-restored-" ++ toString epoch)
          env.cleanupError acc e).1,
        Ev.tableNameOf x = none ∨
          Ev.tableNameOf x =
            some (cfg.SOURCE_TABLE_NAME ++ "-restored-" ++ toString epoch) := by
    intro acc e hacc x hx
    rw [LF.errorPath_trace] at hx
    rcases List.mem_append.mp hx with hx | hx
    · exact hacc x hx
    · exact hclean _ x hx
  have hwaitA : ∀ x ∈ (LF.wait_for_table_status
      (cfg.SOURCE_TABLE_NAME ++ "-restored-" ++ toString epoch) "ACTIVE"
      env.activeWaitAttempts).1,
      Ev.tableNameOf x = none ∨
        Ev.tableNameOf x =
          some (cfg.SOURCE_TABLE_NAME ++ "-restored-" ++ toString epoch) := by
    intro x hx
    exact hP x (LF.wait_table_events _ "ACTIVE" env.activeWaitAttempts x hx)
  have hrest : Ev.tableNameOf (Ev.restoreTable cfg.SOURCE_TABLE_NAME
      (cfg.SOURCE_TABLE_NAME ++ "-restored-" ++ toString epoch) (subDays now 30)) =
      some (cfg.SOURCE_TABLE_NAME ++ "-restored-" ++ toString epoch) := rfl
  unfold LF.lambda_handler at hev
  dsimp only at hev
  split at hev
  · refine herr _ _ ?_ ev hev
    intro x hx
    simp at hx
    subst hx
    exact Or.inr hrest
  · split at hev
    · rename_i tW heq
      simp at hev
      rcases hev with rfl | hev
      · exact Or.inr hrest
      · exact hwaitA ev (by rw [heq]; exact hev)
    · rename_i tW e heq
      refine herr _ _ ?_ ev hev
      intro x hx
      simp at hx
      rcases hx with rfl | hx
      · exact Or.inr hrest
      · exact hwaitA x (by rw [heq]; exact hx)
    · rename_i tW heq
      refine herr _ _ ?_ ev hev
      intro x hx
      simp at hx
      rcases hx with rfl | hx
      · exact Or.inr hrest
      · exact hwaitA x (by rw [heq]; exact hx)
    · rename_i tW desc heq
      split at hev
      · rename_i e2 heq2
        refine herr _ _ ?_ ev hev
        intro x hx
        simp at hx
        rcases hx with rfl | hx | rfl
        · exact Or.inr hrest
        · exact hwaitA x (by rw [heq]; exact hx)
        · exact Or.inl rfl
      · rename_i arnE heq2
        have hwaitE : ∀ x ∈ (LF.wait_for_export_completion arnE
            env.exportWaitAttempts).1,
            Ev.tableNameOf x = none ∨
              Ev.tableNameOf x =
                some (cfg.SOURCE_TABLE_NAME ++ "-restored-" ++ toString epoch) := by
          intro x hx
          rcases LF.wait_export_events arnE env.exportWaitAttempts x hx with
            rfl | rfl <;> simp [Ev.tableNameOf]
        split at hev
        · rename_i tX heq3
          simp at hev
          rcases hev with rfl | hev | rfl | hev
          · exact Or.inr hrest
          · exact hwaitA ev (by rw [heq]; exact hev)
          · exact Or.inl rfl
          · exact hwaitE ev (by rw [heq3]; exact hev)
        · rename_i tX e3 heq3
          refine herr _ _ ?_ ev hev
          intro x hx
          simp at hx
          rcases hx with rfl | hx | rfl | hx
          · exact Or.inr hrest
          · exact hwaitA x (by rw [heq]; exact hx)
          · exact Or.inl rfl
          · exact hwaitE x (by rw [heq3]; exact hx)
        · rename_i tX hok heq3
          split at hev
          · rename_i tC heq4
            simp at hev
            rcases hev with rfl | hev | rfl | hev | hev
            · exact Or.inr hrest
            · exact hwaitA ev (by rw [heq]; exact hev)
            · exact Or.inl rfl
            · exact hwaitE ev (by rw [heq3]; exact hev)
            · exact hclean env.cleanupSuccess ev (by rw [heq4]; exact hev)
          · rename_i tC e4 heq4
            refine herr _ _ ?_ ev hev
            intro x hx
            simp at hx
            rcases hx with rfl | hx | rfl | hx | hx
            · exact Or.inr hrest
            · exact hwaitA x (by rw [heq]; exact hx)
            · exact Or.inl rfl
            · exact hwaitE x (by rw [heq3]; exact hx)
            · exact hclean env.cleanupSuccess x (by rw [heq4]; exact hx)
          · rename_i tC heq4
            simp at hev
            rcases hev with rfl | hev | rfl | hev | hev
            · exact Or.inr hrest
            · exact hwaitA ev (by rw [heq]; exact hev)
            · exact Or.inl rfl
            · exact hwaitE ev (by rw [heq3]; exact hev)
            · exact hclean env.cleanupSuccess ev (by rw [heq4]; exact hev)

/-! ## Claims -/

/-- C3: in every run of `lambda_function.py`'s handler — for every
configuration, clock reading, epoch and oracle — the temporary-table name is
the single string `SOURCE_TABLE_NAME ++ "-restored-" ++ epoch`: the first
event of the trace (before any other external call) is the restore request
already carrying that name, and every table-name-bearing event of the whole
run (restore target, the ACTIVE-wait describes, and every describe/delete/
cleanup of both cleanup call sites) carries that byte-identical string; no
event ever carries a different table name. -/
theorem claim_C3_temp_table_name_identity (cfg : LF.Config)
    (now exportNow : DateTime) (epoch : Nat) (env : LF.HandlerEnv) :
    (LF.lambda_handler cfg now epoch exportNow env).1.head? =
      some (Ev.restoreTable cfg.SOURCE_TABLE_NAME
        (cfg.SOURCE_TABLE_NAME ++ "-restored-" ++ toString epoch)
        (subDays now 30)) ∧
    ∀ ev ∈ (LF.lambda_handler cfg now epoch exportNow env).1,
      Ev.tableNameOf ev = none ∨
        Ev.tableNameOf ev =
          some (cfg.SOURCE_TABLE_NAME ++ "-restored-" ++ toString epoch) := by
  constructor
  · obtain ⟨rest, h⟩ := LF.handler_head cfg now exportNow epoch env
    rw [h]
    rfl
  · exact LF.handler_names cfg now exportNow epoch env

/-- Any response the restore-variant handler actually returns is the 200
success response: error outcomes of that handler are raised, never returned. -/
theorem LF.handler_success_code (cfg : LF.Config) (now exportNow : DateTime)
    (epoch : Nat) (env : LF.HandlerEnv) (sc : Nat) (body : String)
    (h : (LF.lambda_handler cfg now epoch exportNow env).2 = .success sc body) :
    sc = 200 := by
  have hout : ∀ (tname : String) (c : LF.CleanupEnv) (acc : List Ev) (e : PyErr),
      (LF.errorPath tname c acc e).2 = .success sc body → sc = 200 := by
    intro tname c acc e hh
    rcases LF.errorPath_outcome tname c acc e with ho | ho <;>
      rw [ho] at hh <;> cases hh
  unfold LF.lambda_handler at h
  dsimp only at h
  split at h
  · exact hout _ _ _ _ h
  · split at h
    · cases h
    · exact hout _ _ _ _ h
    · exact hout _ _ _ _ h
    · split at h
      · exact hout _ _ _ _ h
      · split at h
        · cases h
        · exact hout _ _ _ _ h
        · split at h
          · injection h with h1 h2
            exact h1.symm
          · exact hout _ _ _ _ h
          · cases h

/-- A cleanup run never invokes the restore API. -/
theorem LF.cleanup_no_restore (n : String) (cenv : LF.CleanupEnv) :
    (LF.cleanup_temp_table n cenv).1.filter isRestoreCall = [] := by
  rw [List.filter_eq_nil_iff]
  intro a ha
  rcases LF.cleanup_events n cenv a ha with rfl | rfl | rfl | rfl <;>
    simp [isRestoreCall]

/-- The error path adds no restore invocations to the trace. -/
theorem LF.errorPath_countRestore (t : String) (c : LF.CleanupEnv)
    (acc : List Ev) (e : PyErr) :
    countRestoreCalls (LF.errorPath t c acc e).1 = countRestoreCalls acc := by
  rw [LF.errorPath_trace]
  unfold countRestoreCalls
  rw [List.filter_append, LF.cleanup_no_restore]
  simp

/-- C4: error-propagation asymmetry.  (i) The live-export handler always
returns a structured response: statusCode 200, or the 500 `errorResponse`
conversion of some exception — it never raises.  (ii) In particular a failing
export call becomes the 500 response carrying that error's message.  (iii) The
restore-variant handler never returns an error-shaped response: any returned
response is the 200 success.  (iv) On failure (here: the restore call raising
`e`) the restore variant re-raises `e` to its caller after attempting cleanup
once. -/
theorem claim_C4_error_propagation_asymmetry :
    (∀ (tn bn rg : String) (now : DateTime) (env : MB.Env),
      (MB.lambda_handler tn bn rg now env).2.statusCode = 200 ∨
        ∃ e, (MB.lambda_handler tn bn rg now env).2 = MB.errorResponse e) ∧
    (∀ (tn bn rg acct et : String) (now : DateTime) (e : PyErr),
      MB.computeExportTime now = .ok et →
      (MB.lambda_handler tn bn rg now ⟨.ok acct, .error e⟩).2 =
        MB.errorResponse e) ∧
    (∀ (cfg : LF.Config) (now exportNow : DateTime) (epoch : Nat)
        (env : LF.HandlerEnv) (sc : Nat) (body : String),
      (LF.lambda_handler cfg now epoch exportNow env).2 = .success sc body →
        sc = 200) ∧
    (∀ (cfg : LF.Config) (now exportNow : DateTime) (epoch : Nat) (e : PyErr)
        (aw : List (List (Except PyErr TableDesc))) (er : Except PyErr String)
        (ew : List (List (Except PyErr ExportDesc))) (cS cE : LF.CleanupEnv),
      (LF.cleanup_temp_table
        (cfg.SOURCE_TABLE_NAME ++ "-restored-" ++ toString epoch) cE).2 ≠ .stuck →
      (LF.lambda_handler cfg now epoch exportNow
          ⟨.error e, aw, er, ew, cS, cE⟩).2 = .raised e ∧
        countCleanupCalls (LF.lambda_handler cfg now epoch exportNow
          ⟨.error e, aw, er, ew, cS, cE⟩).1 = 1) := by
  refine ⟨?_, ?_, ?_, ?_⟩
  · intro tn bn rg now env
    unfold MB.lambda_handler
    rcases hct : MB.computeExportTime now with e | et
    · exact Or.inr ⟨e, rfl⟩
    · rcases ha : env.account with e | acct
      · exact Or.inr ⟨e, rfl⟩
      · rcases hx : env.exportResult with e | arnE
        · exact Or.inr ⟨e, rfl⟩
        · exact Or.inl rfl
  · intro tn bn rg acct et now e het
    unfold MB.lambda_handler
    rw [het]
  · exact fun cfg now exportNow epoch env sc body h =>
      LF.handler_success_code cfg now exportNow epoch env sc body h
  · intro cfg now exportNow epoch e aw er ew cS cE hc
    constructor
    · simp only [LF.lambda_handler]
      exact LF.errorPath_raised _ _ _ _ hc
    · simp only [LF.lambda_handler]
      exact LF.errorPath_countCleanup _ _ _ _ rfl

set_option maxRecDepth 40000 in
/-- Witness for C4 at concrete inputs: a failing export call in the monthly
handler yields its 500 error response, and a failing restore call in the
restore-variant handler yields a raised exception. -/
theorem claim_C4_error_propagation_asymmetry_witness :
    (MB.lambda_handler "Orders" "my-bucket" "r" ⟨2024, 3, 1, 10, 0, 0⟩
        ⟨.ok "acct", .error (.exc "boom")⟩).2 =
      MB.errorResponse (.exc "boom") ∧
    (LF.lambda_handler ⟨"Orders", "b", "p"⟩ ⟨2024, 3, 1, 0, 0, 0⟩ 5
        ⟨2024, 3, 1, 0, 0, 0⟩
        ⟨.error (.exc "rboom"), [], .ok "x", [],
          ⟨.error .resourceNotFound, .ok (), []⟩,
          ⟨.error .resourceNotFound, .ok (), []⟩⟩).2 = .raised (.exc "rboom") :=
  ⟨claim_C4_error_propagation_asymmetry.2.1 "Orders" "my-bucket" "r" "acct"
      "2024-02-29T23:59:59+09:00" ⟨2024, 3, 1, 10, 0, 0⟩ (.exc "boom") rfl,
    (claim_C4_error_propagation_asymmetry.2.2.2 ⟨"Orders", "b", "p"⟩
      ⟨2024, 3, 1, 0, 0, 0⟩ ⟨2024, 3, 1, 0, 0, 0⟩ 5 (.exc "rboom") [] (.ok "x")
      [] ⟨.error .resourceNotFound, .ok (), []⟩
      ⟨.error .resourceNotFound, .ok (), []⟩ (by decide)).1⟩

/-- C6 counterexample: in `lambda_function.py` (one of the "both job
variants") the placement is the reverse of the claim.  At a concrete input,
(a) a single transient failure of the initiating
`restore_table_to_point_in_time` call propagates out of `lambda_handler`
after exactly one restore invocation — no retry around the initiating call —
and (b) `wait_for_table_status`, whose poll loop the claim says carries no
retry, absorbs a whole failed polling attempt and succeeds on the retry
attempt supplied by its tenacity decorator. -/
theorem claim_C6_counterexample :
    ((LF.lambda_handler ⟨"Orders", "b", "p"⟩ ⟨2024, 3, 1, 0, 0, 0⟩ 7
        ⟨2024, 3, 1, 0, 0, 0⟩
        ⟨.error (.exc "Throttling"), [], .ok "x", [],
          ⟨.error .resourceNotFound, .ok (), []⟩,
          ⟨.error .resourceNotFound, .ok (), []⟩⟩).2 =
      .raised (.exc "Throttling") ∧
      countRestoreCalls (LF.lambda_handler ⟨"Orders", "b", "p"⟩
        ⟨2024, 3, 1, 0, 0, 0⟩ 7 ⟨2024, 3, 1, 0, 0, 0⟩
        ⟨.error (.exc "Throttling"), [], .ok "x", [],
          ⟨.error .resourceNotFound, .ok (), []⟩,
          ⟨.error .resourceNotFound, .ok (), []⟩⟩).1 = 1) ∧
    LF.wait_for_table_status "Orders-restored-7" "ACTIVE"
        [[.error (.exc "Throttling")], [.ok ⟨"ACTIVE", "arnT"⟩]] =
      ([Ev.describeTable "Orders-restored-7",
        Ev.describeTable "Orders-restored-7"],
        .ok (some ⟨"ACTIVE", "arnT"⟩)) :=
  ⟨⟨rfl, rfl⟩, rfl⟩

/-- C6 (amended): the retry placement differs between the two restore-variant
modules.  (i) In `lambda_function.py` the initiating restore call has no
retry wrapper: a single failure propagates and the whole trace holds exactly
one restore invocation; (ii) there the tenacity retry wraps the poll loop:
`wait_for_table_status` survives a whole failed polling attempt and succeeds
on the next attempt.  (iii) In `lambda_function_test.py`,
`retry_with_backoff` wraps the initiating restore call — a first-attempt
failure is retried (two restore invocations in the trace) and the job goes
on to succeed; (iv) its poll loops have no retry wrapper: a single
`describe_table` failure propagates out of `wait_for_table_status`
immediately. -/
theorem claim_C6_amended_retry_placement :
    (∀ (cfg : LF.Config) (now exportNow : DateTime) (epoch : Nat) (e : PyErr)
        (aw : List (List (Except PyErr TableDesc))) (er : Except PyErr String)
        (ew : List (List (Except PyErr ExportDesc))) (cS : LF.CleanupEnv),
      (LF.lambda_handler cfg now epoch exportNow
          ⟨.error e, aw, er, ew, cS, ⟨.error .resourceNotFound, .ok (), []⟩⟩).2 =
        .raised e ∧
      countRestoreCalls (LF.lambda_handler cfg now epoch exportNow
        ⟨.error e, aw, er, ew, cS,
          ⟨.error .resourceNotFound, .ok (), []⟩⟩).1 = 1) ∧
    (∀ (name m arn : String),
      LF.wait_for_table_status name "ACTIVE"
          [[.error (.exc m)], [.ok ⟨"ACTIVE", arn⟩]] =
        ([Ev.describeTable name, Ev.describeTable name],
          .ok (some ⟨"ACTIVE", arn⟩))) ∧
    (∀ (e : PyErr) (arnT arnE : String),
      (LFT.lambda_handler ⟨"Orders", "b"⟩ ⟨2024, 3, 1, 1, 0, 0⟩ 7
          ⟨2024, 3, 1, 1, 0, 0⟩
          ⟨[.error e, .ok ()], [.ok ⟨"ACTIVE", arnT⟩], [.ok arnE],
            [.ok ⟨"COMPLETED", none⟩],
            ⟨.error .resourceNotFound, .ok (), []⟩,
            ⟨.error .resourceNotFound, .ok (), []⟩⟩).2 =
        .success 200
          "Test process completed successfully. Exported to s3://b/test/Orders-test-restored-7/2024/03/01/010000" ∧
      countRestoreCalls (LFT.lambda_handler ⟨"Orders", "b"⟩
        ⟨2024, 3, 1, 1, 0, 0⟩ 7 ⟨2024, 3, 1, 1, 0, 0⟩
        ⟨[.error e, .ok ()], [.ok ⟨"ACTIVE", arnT⟩], [.ok arnE],
          [.ok ⟨"COMPLETED", none⟩],
          ⟨.error .resourceNotFound, .ok (), []⟩,
          ⟨.error .resourceNotFound, .ok (), []⟩⟩).1 = 2) ∧
    (∀ (name exp m : String),
      LFT.wait_for_table_status name exp [.error (.exc m)] =
        ([Ev.describeTable name], .err (.exc m))) := by
  refine ⟨?_, ?_, ?_, ?_⟩
  · intro cfg now exportNow epoch e aw er ew cS
    constructor
    · simp only [LF.lambda_handler]
      exact LF.errorPath_raised _ _ _ _ (by simp [LF.cleanup_temp_table])
    · simp only [LF.lambda_handler]
      rw [LF.errorPath_countRestore]
      rfl
  · intro name m arn
    simp [LF.wait_for_table_status, waitTableStep, tenacityRetry, MAX_RETRIES]
  · intro e arnT arnE
    constructor
    · simp [LFT.lambda_handler, LFT.retry_with_backoff, LFT.retryLoop,
        LFT.wait_for_table_status, LFT.wait_for_export_completion,
        waitTableStep, waitExportStep, LFT.cleanup_temp_table, MAX_RETRIES,
        WAIT_TIME]
      rfl
    · simp [LFT.lambda_handler, LFT.retry_with_backoff, LFT.retryLoop,
        LFT.wait_for_table_status, LFT.wait_for_export_completion,
        waitTableStep, waitExportStep, LFT.cleanup_temp_table, MAX_RETRIES,
        WAIT_TIME, countRestoreCalls, isRestoreCall]
  · intro name exp m
    rfl

/-- C1: in `lambda_function.py`'s `lambda_handler`, when the restore succeeds
(restore call ok, table reaches ACTIVE) but the export step fails — either the
initiating `export_table_to_point_in_time` call raises (first scenario) or
`wait_for_export_completion` raises (second scenario) — `cleanup_temp_table`
is attempted exactly once, in the error path, and the outcome is the
export-step failure being re-raised, whatever the cleanup attempt itself does
(`cE` is an arbitrary terminating cleanup oracle, including failing ones).
In the first scenario the initiating call has no retry wrapper, so its
exception propagates bare; in the second the failure escapes the
tenacity-decorated wait as the `RetryError` wrapping it — in both cases the
propagated error is the export step's, never the cleanup attempt's. -/
theorem claim_C1_export_failure_cleanup_once (cfg : LF.Config)
    (now exportNow : DateTime) (epoch : Nat) (arnT arnE m : String)
    (ews : List (List (Except PyErr ExportDesc))) (cS cE : LF.CleanupEnv)
    (hc : (LF.cleanup_temp_table
      (cfg.SOURCE_TABLE_NAME ++ "-restored-" ++ toString epoch) cE).2 ≠ .stuck) :
    ((LF.lambda_handler cfg now epoch exportNow
        ⟨.ok (), [[.ok ⟨"ACTIVE", arnT⟩]], .error (.exc m), ews, cS, cE⟩).2 =
          .raised (.exc m) ∧
      countCleanupCalls (LF.lambda_handler cfg now epoch exportNow
        ⟨.ok (), [[.ok ⟨"ACTIVE", arnT⟩]], .error (.exc m), ews, cS, cE⟩).1 = 1) ∧
    ((LF.lambda_handler cfg now epoch exportNow
        ⟨.ok (), [[.ok ⟨"ACTIVE", arnT⟩]], .ok arnE,
          List.replicate MAX_RETRIES [.error (.exc m)], cS, cE⟩).2 =
          .raised (.retryError (.exc m)) ∧
      countCleanupCalls (LF.lambda_handler cfg now epoch exportNow
        ⟨.ok (), [[.ok ⟨"ACTIVE", arnT⟩]], .ok arnE,
          List.replicate MAX_RETRIES [.error (.exc m)], cS, cE⟩).1 = 1) := by
  constructor
  · simp [LF.lambda_handler, LF.wait_for_table_status, waitTableStep,
      tenacityRetry, MAX_RETRIES]
    exact ⟨LF.errorPath_raised _ _ _ _ hc, LF.errorPath_countCleanup _ _ _ _ rfl⟩
  · simp [LF.lambda_handler, LF.wait_for_table_status, waitTableStep,
      LF.wait_for_export_completion, waitExportStep, tenacityRetry, MAX_RETRIES,
      List.replicate]
    exact ⟨LF.errorPath_raised _ _ _ _ hc, LF.errorPath_countCleanup _ _ _ _ rfl⟩

/-- Witness for C1 at a concrete input: source table `Orders`, epoch 100, an
error-path cleanup oracle that itself fails (`delete_table` raises), and the
export-initiation failure message `boom`. -/
theorem claim_C1_export_failure_cleanup_once_witness :
    ((LF.lambda_handler ⟨"Orders", "b", "p"⟩ ⟨2024, 3, 1, 0, 0, 0⟩ 100
        ⟨2024, 3, 1, 0, 0, 0⟩
        ⟨.ok (), [[.ok ⟨"ACTIVE", "arnT"⟩]], .error (.exc "boom"), [],
          ⟨.error .resourceNotFound, .ok (), []⟩,
          ⟨.ok ⟨"ACTIVE", "arnT"⟩, .error (.exc "cleanup-fail"), []⟩⟩).2 =
      .raised (.exc "boom")) ∧
    countCleanupCalls (LF.lambda_handler ⟨"Orders", "b", "p"⟩ ⟨2024, 3, 1, 0, 0, 0⟩
      100 ⟨2024, 3, 1, 0, 0, 0⟩
      ⟨.ok (), [[.ok ⟨"ACTIVE", "arnT"⟩]], .error (.exc "boom"), [],
        ⟨.error .resourceNotFound, .ok (), []⟩,
        ⟨.ok ⟨"ACTIVE", "arnT"⟩, .error (.exc "cleanup-fail"), []⟩⟩).1 = 1 :=
  (claim_C1_export_failure_cleanup_once ⟨"Orders", "b", "p"⟩ ⟨2024, 3, 1, 0, 0, 0⟩
    ⟨2024, 3, 1, 0, 0, 0⟩ 100 "arnT" "arnE" "boom" []
    ⟨.error .resourceNotFound, .ok (), []⟩
    ⟨.ok ⟨"ACTIVE", "arnT"⟩, .error (.exc "cleanup-fail"), []⟩ (by decide)).1

/-- C2: `cleanup_temp_table` on a table whose `describe_table` raises
`ResourceNotFoundException` returns normally (no exception), for every table
name and whatever the rest of its oracle holds — in both restore-variant
modules.  Cleanup is therefore safe to call when the restore never created
the table. -/
theorem claim_C2_cleanup_idempotent_on_absent_table (table_name : String)
    (delRes : Except PyErr Unit)
    (attempts : List (List (Except PyErr TableDesc)))
    (polls : List (Except PyErr TableDesc)) :
    LF.cleanup_temp_table table_name ⟨.error .resourceNotFound, delRes, attempts⟩ =
      ([Ev.cleanupCall table_name, Ev.describeTable table_name], .ok ()) ∧
    LFT.cleanup_temp_table table_name ⟨.error .resourceNotFound, delRes, polls⟩ =
      ([Ev.cleanupCall table_name, Ev.describeTable table_name], .ok ()) :=
  ⟨rfl, rfl⟩

/-- C5: `retry_with_backoff` invokes the wrapped operation up to
`MAX_RETRIES = 3` times; after the n-th failed attempt (n = 1, 2) it sleeps
exactly `min(WAIT_TIME * 2^(n-1), 300)` seconds — 30 then 60 — and when the
final attempt fails it re-raises that last error with no further sleep.  The
trace equations show each attempt (`ev`), the interleaved sleeps, and the
final re-raise of the third error. -/
theorem claim_C5_retry_backoff_schedule {α : Type} (ev : Ev)
    (e1 e2 e3 : PyErr) (a : α) (rest : List (Except PyErr α)) :
    LFT.retry_with_backoff ev [.error e1, .error e2, .error e3] =
      ([ev, Ev.sleep 30, ev, Ev.sleep 60, ev], (Res.err e3 : Res α)) ∧
    LFT.retry_with_backoff ev (.ok a :: rest) = ([ev], .ok a) ∧
    LFT.retry_with_backoff ev (.error e1 :: .ok a :: rest) =
      ([ev, Ev.sleep 30, ev], .ok a) ∧
    min (WAIT_TIME * 2 ^ 0) 300 = 30 ∧ min (WAIT_TIME * 2 ^ 1) 300 = 60 :=
  ⟨rfl, rfl, rfl, rfl, rfl⟩

/-- C7 counterexample: the original claim fails on `lambda_function.py`.
`wait_for_export_completion` carries the tenacity retry decorator with its
default `reraise=False`; a `FAILED` export status makes every attempt raise
`Exception("Export failed or cancelled: X")`, and after the attempts are
exhausted what escapes the wait — and what `lambda_handler`'s bare `raise`
propagates — is the `RetryError` wrapping that last attempt, whose own
message (`str(e)`) shows only the wrapped exception's class, not its
message: at failure message `DataError-42`, the propagated error's message
does not contain `DataError-42` (while the wrapped inner exception's message
does). -/
theorem claim_C7_counterexample :
    (LF.lambda_handler ⟨"Orders", "b", "p"⟩ ⟨2024, 3, 1, 0, 0, 0⟩ 42
        ⟨2024, 3, 1, 0, 0, 0⟩
        ⟨.ok (), [[.ok ⟨"ACTIVE", "arnT"⟩]], .ok "arnE",
          List.replicate MAX_RETRIES [.ok ⟨"FAILED", some "DataError-42"⟩],
          ⟨.error .resourceNotFound, .ok (), []⟩,
          ⟨.error .resourceNotFound, .ok (), []⟩⟩).2 =
      .raised (.retryError (.exc "Export failed or cancelled: DataError-42")) ∧
    strContainsSub (PyErr.str
      (.retryError (.exc "Export failed or cancelled: DataError-42")))
      "DataError-42" = false ∧
    strContainsSub (PyErr.str (.exc "Export failed or cancelled: DataError-42"))
      "DataError-42" = true := by
  refine ⟨?_, by decide, by decide⟩
  decide

/-- C7 (amended): if the export status becomes `FAILED` with service failure
message `X`, the restore-then-export job raises a tenacity `RetryError`
wrapping the `Exception("Export failed or cancelled: " ++ X)` — so `X` is
surfaced verbatim in the wrapped attempt's message, though not in the
`RetryError`'s own — and `cleanup_temp_table` is still invoked (exactly once)
on the temporary table before that error propagates out of
`lambda_handler`. -/
theorem claim_C7_amended_failed_export_wrapped_message (cfg : LF.Config)
    (now exportNow : DateTime) (epoch : Nat) (arnT arnE X : String)
    (cS cE : LF.CleanupEnv)
    (hc : (LF.cleanup_temp_table
      (cfg.SOURCE_TABLE_NAME ++ "-restored-" ++ toString epoch) cE).2 ≠ .stuck) :
    (LF.lambda_handler cfg now epoch exportNow
        ⟨.ok (), [[.ok ⟨"ACTIVE", arnT⟩]], .ok arnE,
          List.replicate MAX_RETRIES [.ok ⟨"FAILED", some X⟩], cS, cE⟩).2 =
      .raised (.retryError (.exc ("Export failed or cancelled: " ++ X))) ∧
    countCleanupCalls (LF.lambda_handler cfg now epoch exportNow
      ⟨.ok (), [[.ok ⟨"ACTIVE", arnT⟩]], .ok arnE,
        List.replicate MAX_RETRIES [.ok ⟨"FAILED", some X⟩], cS, cE⟩).1 = 1 ∧
    Ev.cleanupCall (cfg.SOURCE_TABLE_NAME ++ "-restored-" ++ toString epoch) ∈
      (LF.lambda_handler cfg now epoch exportNow
        ⟨.ok (), [[.ok ⟨"ACTIVE", arnT⟩]], .ok arnE,
          List.replicate MAX_RETRIES [.ok ⟨"FAILED", some X⟩], cS, cE⟩).1 := by
  simp only [LF.lambda_handler, LF.wait_for_table_status, waitTableStep,
    LF.wait_for_export_completion, waitExportStep, tenacityRetry, MAX_RETRIES,
    List.replicate]
  simp
  refine ⟨LF.errorPath_raised _ _ _ _ hc, LF.errorPath_countCleanup _ _ _ _ rfl, ?_⟩
  rw [LF.errorPath_trace]
  simp [LF.cleanup_mem_call]

/-- Witness for the amended C7 at a concrete input: failure message `X`,
source table `Orders`, epoch 42, an error-path cleanup oracle that
succeeds. -/
theorem claim_C7_amended_failed_export_wrapped_message_witness :
    (LF.lambda_handler ⟨"Orders", "b", "p"⟩ ⟨2024, 3, 1, 0, 0, 0⟩ 42
        ⟨2024, 3, 1, 0, 0, 0⟩
        ⟨.ok (), [[.ok ⟨"ACTIVE", "arnT"⟩]], .ok "arnE",
          List.replicate MAX_RETRIES [.ok ⟨"FAILED", some "X"⟩],
          ⟨.error .resourceNotFound, .ok (), []⟩,
          ⟨.error .resourceNotFound, .ok (), []⟩⟩).2 =
      .raised (.retryError (.exc ("Export failed or cancelled: " ++ "X"))) ∧
    Ev.cleanupCall ("Orders" ++ "-restored-" ++ toString 42) ∈
      (LF.lambda_handler ⟨"Orders", "b", "p"⟩ ⟨2024, 3, 1, 0, 0, 0⟩ 42
        ⟨2024, 3, 1, 0, 0, 0⟩
        ⟨.ok (), [[.ok ⟨"ACTIVE", "arnT"⟩]], .ok "arnE",
          List.replicate MAX_RETRIES [.ok ⟨"FAILED", some "X"⟩],
          ⟨.error .resourceNotFound, .ok (), []⟩,
          ⟨.error .resourceNotFound, .ok (), []⟩⟩).1 :=
  have h := claim_C7_amended_failed_export_wrapped_message ⟨"Orders", "b", "p"⟩
    ⟨2024, 3, 1, 0, 0, 0⟩ ⟨2024, 3, 1, 0, 0, 0⟩ 42 "arnT" "arnE" "X"
    ⟨.error .resourceNotFound, .ok (), []⟩ ⟨.error .resourceNotFound, .ok (), []⟩
    (by decide)
  ⟨h.1, h.2.2⟩

/-- C10: in `lambda_function.py`'s `lambda_handler`, when restore and export
both succeed but the final (success-path) `cleanup_temp_table` raises `ce`,
the 200 response is not returned: control falls into the `except` block,
cleanup is attempted a second time, and `ce` — the cleanup error — is
re-raised to the caller. -/
theorem claim_C10_success_path_cleanup_failure_reraises (cfg : LF.Config)
    (now exportNow : DateTime) (epoch : Nat) (arnT arnE : String) (ce : PyErr)
    (cS cE : LF.CleanupEnv)
    (hS : (LF.cleanup_temp_table
      (cfg.SOURCE_TABLE_NAME ++ "-restored-" ++ toString epoch) cS).2 = .err ce)
    (hc : (LF.cleanup_temp_table
      (cfg.SOURCE_TABLE_NAME ++ "-restored-" ++ toString epoch) cE).2 ≠ .stuck) :
    (LF.lambda_handler cfg now epoch exportNow
        ⟨.ok (), [[.ok ⟨"ACTIVE", arnT⟩]], .ok arnE,
          [[.ok ⟨"COMPLETED", none⟩]], cS, cE⟩).2 = .raised ce ∧
    countCleanupCalls (LF.lambda_handler cfg now epoch exportNow
      ⟨.ok (), [[.ok ⟨"ACTIVE", arnT⟩]], .ok arnE,
        [[.ok ⟨"COMPLETED", none⟩]], cS, cE⟩).1 = 2 := by
  rcases hcs : LF.cleanup_temp_table
      (cfg.SOURCE_TABLE_NAME ++ "-restored-" ++ toString epoch) cS with ⟨tC, rC⟩
  rw [hcs] at hS
  simp only at hS
  subst hS
  have htc : countCleanupCalls tC = 1 := by
    have := LF.cleanup_countCleanup
      (cfg.SOURCE_TABLE_NAME ++ "-restored-" ++ toString epoch) cS
    rw [hcs] at this
    exact this
  simp only [LF.lambda_handler, LF.wait_for_table_status, waitTableStep,
    LF.wait_for_export_completion, waitExportStep, tenacityRetry, MAX_RETRIES]
  simp [hcs]
  refine ⟨LF.errorPath_raised _ _ _ _ hc, ?_⟩
  rw [LF.errorPath_countCleanup_eq]
  unfold countCleanupCalls at htc ⊢
  simp [List.filter_append, htc, isCleanupCall]

/-- Witness for C10 at a concrete input: the success-path cleanup oracle has
`delete_table` raise `cleanup-fail`; the outcome is that cleanup error
re-raised after a second cleanup attempt. -/
theorem claim_C10_success_path_cleanup_failure_reraises_witness :
    (LF.lambda_handler ⟨"Orders", "b", "p"⟩ ⟨2024, 3, 1, 0, 0, 0⟩ 42
        ⟨2024, 3, 1, 0, 0, 0⟩
        ⟨.ok (), [[.ok ⟨"ACTIVE", "arnT"⟩]], .ok "arnE",
          [[.ok ⟨"COMPLETED", none⟩]],
          ⟨.ok ⟨"ACTIVE", "arnT"⟩, .error (.exc "cleanup-fail"), []⟩,
          ⟨.error .resourceNotFound, .ok (), []⟩⟩).2 =
      .raised (.exc "cleanup-fail") ∧
    countCleanupCalls (LF.lambda_handler ⟨"Orders", "b", "p"⟩
      ⟨2024, 3, 1, 0, 0, 0⟩ 42 ⟨2024, 3, 1, 0, 0, 0⟩
      ⟨.ok (), [[.ok ⟨"ACTIVE", "arnT"⟩]], .ok "arnE",
        [[.ok ⟨"COMPLETED", none⟩]],
        ⟨.ok ⟨"ACTIVE", "arnT"⟩, .error (.exc "cleanup-fail"), []⟩,
        ⟨.error .resourceNotFound, .ok (), []⟩⟩).1 = 2 :=
  claim_C10_success_path_cleanup_failure_reraises ⟨"Orders", "b", "p"⟩
    ⟨2024, 3, 1, 0, 0, 0⟩ ⟨2024, 3, 1, 0, 0, 0⟩ 42 "arnT" "arnE"
    (.exc "cleanup-fail")
    ⟨.ok ⟨"ACTIVE", "arnT"⟩, .error (.exc "cleanup-fail"), []⟩
    ⟨.error .resourceNotFound, .ok (), []⟩ (by decide) (by decide)

set_option maxRecDepth 40000 in
/-- C8 counterexample: with source table `Orders` and current JST time
2024-03-01T10:00:00+09:00, the live-export handler does not request the
export at `2024-03-01T09:00:00+09:00`.  It computes 23:59:59 of the last day
of the previous month: the one export request in the trace carries
`ExportTime = 2024-02-29T23:59:59+09:00`, a different string. -/
theorem claim_C8_counterexample :
    (MB.lambda_handler "Orders" "my-bucket" "ap-northeast-1"
        ⟨2024, 3, 1, 10, 0, 0⟩
        ⟨.ok "123456789012", .ok "arn:export/xyz"⟩).1 =
      [Ev.exportTableAtTime
        "arn:aws:dynamodb:ap-northeast-1:123456789012:table/Orders"
        "my-bucket" "2024-02-29T23:59:59+09:00"] ∧
    ("2024-02-29T23:59:59+09:00" : String) ≠ "2024-03-01T09:00:00+09:00" :=
  ⟨rfl, by decide⟩

set_option maxRecDepth 40000 in
/-- C8 (amended): for the live-export variant with source table `Orders` and
current time 2024-03-01T10:00:00+09:00, the handler requests the export at
`ExportTime = 2024-02-29T23:59:59+09:00` (23:59:59 JST on the last day of the
previous month) and, on success, returns statusCode 200 with `s3Location`
equal to `s3://my-bucket`. -/
theorem claim_C8_amended_export_time_and_location :
    MB.lambda_handler "Orders" "my-bucket" "ap-northeast-1"
        ⟨2024, 3, 1, 10, 0, 0⟩
        ⟨.ok "123456789012", .ok "arn:export/xyz"⟩ =
      ([Ev.exportTableAtTime
          "arn:aws:dynamodb:ap-northeast-1:123456789012:table/Orders"
          "my-bucket" "2024-02-29T23:59:59+09:00"],
        ⟨200, .success "前月最終日時点のバックアップエクスポートを開始しました"
          "arn:export/xyz" "2024-02-29T23:59:59+09:00" "s3://my-bucket"⟩) :=
  rfl

set_option maxRecDepth 40000 in
/-- C9: restore-then-export scenario with source table `Orders`, current time
2024-03-01T00:00:00Z, a 30-day lag and epoch 1709251200: the restore is
issued with `RestoreDateTime = 2024-01-31T00:00:00Z` and temporary-table name
`Orders-restored-1709251200`, and the export prefix is
`backups/Orders-restored-1709251200/2024/03/01/000000`
(i.e. `<prefix>/<tempTable>/YYYY/MM/DD/HHMMSS`). -/
theorem claim_C9_restore_scenario_names_and_path :
    LF.lambda_handler ⟨"Orders", "my-bucket", "backups"⟩ ⟨2024, 3, 1, 0, 0, 0⟩
        1709251200 ⟨2024, 3, 1, 0, 0, 0⟩
        ⟨.ok (), [[.ok ⟨"ACTIVE", "arnT"⟩]], .ok "arnE",
          [[.ok ⟨"COMPLETED", none⟩]],
          ⟨.error .resourceNotFound, .ok (), []⟩,
          ⟨.error .resourceNotFound, .ok (), []⟩⟩ =
      ([Ev.restoreTable "Orders" "Orders-restored-1709251200"
          ⟨2024, 1, 31, 0, 0, 0⟩,
        Ev.describeTable "Orders-restored-1709251200",
        Ev.exportTableToPointInTime "arnT" "my-bucket"
          "backups/Orders-restored-1709251200/2024/03/01/000000",
        Ev.describeExport "arnE",
        Ev.cleanupCall "Orders-restored-1709251200",
        Ev.describeTable "Orders-restored-1709251200"],
        .success 200
          "Process completed successfully. Exported to s3://my-bucket/backups/Orders-restored-1709251200/2024/03/01/000000") :=
  rfl

end DynamoBackup
